import Mathlib

/-!
Verification of the Reveal Cell Cam integration against its specification.

The definitions below are a shallow embedding of the Python source in
`custom_components/reveal_cell_cam/` (mainly `api.py` and `sensor.py`).
Vendor JSON is modelled by `JVal`; Python truthiness by `truthy`;
Python code that can raise models its outcome with `PyResult`.
Numeric JSON literals are modelled as integers (every literal relevant to
the claims is an integer); averages are computed in `Rat` because Python
uses float division there.
-/

/-- Outcome of running a piece of Python code: a normal value, or a raised
exception identified by its class name. -/
inductive PyResult (α : Type) where
  | ok : α → PyResult α
  | exn : String → PyResult α
deriving DecidableEq, Repr

/-- A JSON value as held in Python after `json.loads`: `None`, a number,
a string, a dict (association list, insertion order kept) or a list. -/
inductive JVal where
  | null : JVal
  | num : Int → JVal
  | str : String → JVal
  | obj : List (String × JVal) → JVal
  | arr : List JVal → JVal

/-- Boolean equality on `JVal`, structural. -/
def JVal.beqv : JVal → JVal → Bool
  | .null, .null => true
  | .num a, .num b => a == b
  | .str a, .str b => a == b
  | .obj a, .obj b => beqObj a b
  | .arr a, .arr b => beqArr a b
  | _, _ => false
where
  beqObj : List (String × JVal) → List (String × JVal) → Bool
    | [], [] => true
    | (k₁, v₁) :: r₁, (k₂, v₂) :: r₂ => k₁ == k₂ && beqv v₁ v₂ && beqObj r₁ r₂
    | _, _ => false
  beqArr : List JVal → List JVal → Bool
    | [], [] => true
    | v₁ :: r₁, v₂ :: r₂ => beqv v₁ v₂ && beqArr r₁ r₂
    | _, _ => false

/-- Python truthiness of a JSON value: `None`, `0`, `""`, `{}` and `[]`
are falsy, everything else is truthy. -/
def truthy : JVal → Bool
  | .null => false
  | .num n => n != 0
  | .str s => s != ""
  | .obj fs => !fs.isEmpty
  | .arr xs => !xs.isEmpty

/-- `d.get(k)` on a Python dict `d`: the stored value, or `None` when the
key is absent. -/
def jget (fs : List (String × JVal)) (k : String) : JVal :=
  (fs.lookup k).getD .null

/-- Python `a or b`: `a` when `a` is truthy, otherwise `b` (the last
operand is returned as-is, truthy or not). -/
def pyOr (a b : JVal) : JVal :=
  if truthy a then a else b

/-- `int(s)` on a string: an optional sign followed by digits; anything
else raises `ValueError`, modelled as `none`. -/
def parseIntStr (s : String) : Option Int :=
  let digitsVal (cs : List Char) : Option Nat :=
    if cs.isEmpty then none
    else if cs.all Char.isDigit then
      some (cs.foldl (fun a c => 10 * a + (c.toNat - 48)) 0)
    else none
  match s.data with
  | '-' :: rest => (digitsVal rest).map (fun n => -(n : Int))
  | cs => (digitsVal cs).map (fun n => (n : Int))

/-- `float(v)` wrapped in `try/except (ValueError, TypeError)` that falls
through to `None`: numbers convert, numeric strings parse, everything else
(including dicts and lists) yields `none`. -/
def pyFloat : JVal → Option Int
  | .num n => some n
  | .str s => parseIntStr s
  | _ => none

/-- `RevealTemperatureSensor.native_value` (sensor.py): resolve the weather
object with `photo.get("weatherData") or photo.get("weatherRecord") or
photo.get("weather")`; if truthy, resolve the temperature with
`weather_data.get("currentTemp") or weather_data.get("temperature") or
weather_data.get("temp")` and convert with `float` when the result
`is not None`. Calling `.get` on a truthy non-dict raises
`AttributeError`. -/
def temperature_native_value (photo : List (String × JVal)) : PyResult (Option Int) :=
  let weather_data :=
    pyOr (jget photo "weatherData") (pyOr (jget photo "weatherRecord") (jget photo "weather"))
  if truthy weather_data then
    match weather_data with
    | .obj fs =>
      let temp := pyOr (jget fs "currentTemp") (pyOr (jget fs "temperature") (jget fs "temp"))
      if temp.beqv .null then .ok none else .ok (pyFloat temp)
    | _ => .exn "AttributeError"
  else .ok none

/-- Spec-side resolution of the temperature, written from the amended
spec words: probe the three weather keys in order and keep the first
truthy value; inside the resulting object probe `currentTemp` then
`temperature` for a truthy value, and failing both use the `temp` field
whenever it is not `None`; otherwise the result is unknown. -/
def spec_resolve_temperature (photo : List (String × JVal)) : Option Int :=
  let weatherObject :=
    if truthy (jget photo "weatherData") then jget photo "weatherData"
    else if truthy (jget photo "weatherRecord") then jget photo "weatherRecord"
    else if truthy (jget photo "weather") then jget photo "weather"
    else .null
  match weatherObject with
  | .obj fs =>
    if truthy (jget fs "currentTemp") then pyFloat (jget fs "currentTemp")
    else if truthy (jget fs "temperature") then pyFloat (jget fs "temperature")
    else if jget fs "temp" |>.beqv .null then none
    else pyFloat (jget fs "temp")
  | _ => none

/-- A weather slot is well-shaped when any truthy value stored there is a
dict (on a truthy non-dict the Python code raises `AttributeError`). -/
def wellShaped (v : JVal) : Prop :=
  truthy v = true → ∃ fs, v = JVal.obj fs

/-- Concrete photo for C1: `currentTemp` is present and non-null but 0. -/
def c1_photo : List (String × JVal) :=
  [("weatherData", JVal.obj [("currentTemp", JVal.num 0), ("temperature", JVal.num 25)])]

/-- Python truthiness of an `Optional[str]`: `None` and `""` are falsy. -/
def strTruthy : Option String → Bool
  | none => false
  | some s => s != ""

/-- `f"{x}"` of an `Optional[str]`: `None` prints as the string `None`. -/
def pyStrOpt : Option String → String
  | none => "None"
  | some s => s

/-- Token state held by `RevealCellCamAPI` (api.py): access token, id
token, refresh token and computed expiry (an instant in seconds). -/
structure TokenState where
  access_token : Option String
  id_token : Option String
  refresh_token : Option String
  token_expiry : Option Int
deriving DecidableEq, Repr

/-- State right after `__init__`: no tokens, no expiry. -/
def initialTokenState : TokenState := ⟨none, none, none, none⟩

/-- Parsed `AuthenticationResult` payload of a Cognito reply; each field
read with `.get`, hence optional. -/
structure AuthResult where
  AccessToken : Option String := none
  IdToken : Option String := none
  RefreshToken : Option String := none
  ExpiresIn : Option Int := none
deriving DecidableEq, Repr

/-- Reply to one Cognito POST: a network error (`aiohttp.ClientError`),
or an HTTP reply whose parsed body optionally holds an
`AuthenticationResult` object. -/
inductive CognitoReply where
  | netError
  | http (status : Nat) (authResult : Option AuthResult)
deriving DecidableEq, Repr

/-- The 5-minute refresh buffer, in seconds. -/
def token_buffer_seconds : Int := 300

/-- `ExpiresIn` default used by the source: 43200 seconds (12 hours). -/
def default_expires_in : Int := 43200

/-- `RevealCellCamAPI.authenticate` (api.py): on a 200 reply holding an
`AuthenticationResult`, store the access/id/refresh tokens and set the
expiry to `now + ExpiresIn` (default 12 h), returning `True`; on any other
reply or a network error leave the state unchanged and return `False`.
(The best-effort account-info lookup touches only `_account_id`, which is
not part of the token state.) -/
def authenticate (st : TokenState) (now : Int) (r : CognitoReply) : TokenState × Bool :=
  match r with
  | .netError => (st, false)
  | .http status ar =>
    if status = 200 then
      match ar with
      | some a =>
        ({ st with access_token := a.AccessToken, id_token := a.IdToken,
                   refresh_token := a.RefreshToken,
                   token_expiry := some (now + a.ExpiresIn.getD default_expires_in) }, true)
      | none => (st, false)
    else (st, false)

/-- `RevealCellCamAPI._refresh_tokens` (api.py): with no refresh token it
delegates to `authenticate`; otherwise on a 200 reply holding an
`AuthenticationResult` it stores the new access/id tokens and expiry
(the refresh token itself is not replaced), else fails with the state
unchanged. -/
def refresh_tokens (st : TokenState) (now : Int) (r : CognitoReply) : TokenState × Bool :=
  if strTruthy st.refresh_token = false then authenticate st now r
  else
    match r with
    | .netError => (st, false)
    | .http status ar =>
      if status = 200 then
        match ar with
        | some a =>
          ({ st with access_token := a.AccessToken, id_token := a.IdToken,
                     token_expiry := some (now + a.ExpiresIn.getD default_expires_in) }, true)
        | none => (st, false)
      else (st, false)

/-- Which network action `_ensure_authenticated` decides on. -/
inductive AuthAction where
  | returnTrue
  | callAuthenticate
  | callRefresh
deriving DecidableEq, Repr

/-- Decision logic of `RevealCellCamAPI._ensure_authenticated` (api.py):
no (truthy) access token or no expiry → authenticate; within the 5-minute
buffer of expiry → refresh when a refresh token is held, else
authenticate; otherwise return `True` with no network call. -/
def ensure_authenticated_action (st : TokenState) (now : Int) : AuthAction :=
  match st.token_expiry with
  | none => .callAuthenticate
  | some e =>
    if strTruthy st.access_token = false then .callAuthenticate
    else if now ≥ e - token_buffer_seconds then
      if strTruthy st.refresh_token then .callRefresh else .callAuthenticate
    else .returnTrue

/-- `RevealCellCamAPI._ensure_authenticated` as a state transformer: the
decided action applied to the state, given the provider reply `r` that the
delegated call would receive. -/
def ensure_authenticated (st : TokenState) (now : Int) (r : CognitoReply) : TokenState × Bool :=
  match ensure_authenticated_action st now with
  | .returnTrue => (st, true)
  | .callAuthenticate => authenticate st now r
  | .callRefresh => refresh_tokens st now r

/-- Invariant of the token state: whenever an access token is stored, the
expiry instant is set. -/
def token_invariant (st : TokenState) : Prop :=
  st.access_token ≠ none → st.token_expiry ≠ none

/-- Fixed vendor client-identity header value (const.py `USER_AGENT`). -/
def USER_AGENT : String := "RevealWeb/5.4.0"

/-- `RevealCellCamAPI._get_headers` (api.py): fixed browser-mimicking
headers plus the vendor client-identity header; `Authorization: Bearer
<access token>` is added only when an access token is held (truthy). -/
def get_headers (access_token : Option String) : List (String × String) :=
  [("reveal-user-agent", USER_AGENT),
   ("Content-Type", "application/json"),
   ("Accept", "application/json"),
   ("Origin", "https://account.revealcellcam.com"),
   ("Referer", "https://account.revealcellcam.com/"),
   ("User-Agent", "Mozilla/5.0 (Macintosh; Intel Mac OS X 10_15_7) AppleWebKit/537.36")]
  ++ (if strTruthy access_token then [("Authorization", "Bearer " ++ access_token.getD "")] else [])

/-- Headers built inline by `RevealCellCamAPI.get_camera_stats` (api.py):
unlike every other call, `Authorization` is interpolated from
`self._id_token`, not the access token. -/
def camera_stats_headers (id_token : Option String) : List (String × String) :=
  [("Authorization", "Bearer " ++ pyStrOpt id_token),
   ("reveal-user-agent", USER_AGENT),
   ("Content-Type", "application/json"),
   ("Accept", "application/json"),
   ("Origin", "https://account.revealcellcam.com"),
   ("Referer", "https://account.revealcellcam.com/")]

/-- Body of one vendor HTTP reply, as seen by `response.json()`: valid
JSON, a malformed JSON body served with JSON content type (decode raises
`json.JSONDecodeError`, not an `aiohttp.ClientError`), or a body served
with a non-JSON content type (`ContentTypeError`, which is an
`aiohttp.ClientError`). -/
inductive BodyContent where
  | jsonBody (v : JVal)
  | malformed
  | wrongContentType

/-- Outcome of one vendor HTTP request. -/
inductive HttpOutcome where
  | netError
  | reply (status : Nat) (body : BodyContent)

/-- `d.get(k, default)` where `d` may not be a dict: on a non-dict Python
raises `AttributeError`. -/
def dictGetD (v : JVal) (k : String) (d : JVal) : PyResult JVal :=
  match v with
  | .obj fs => .ok ((fs.lookup k).getD d)
  | _ => .exn "AttributeError"

/-- Shared body of `get_cameras`/`get_photos` on a reply body:
`data.get("response", {}).get(key, [])` inside
`try: ... except aiohttp.ClientError: return []`. A malformed JSON body
raises `json.JSONDecodeError`, which that except clause does not catch. -/
def extract_list_field (body : BodyContent) (k : String) : PyResult JVal :=
  match body with
  | .malformed => .exn "JSONDecodeError"
  | .wrongContentType => .ok (.arr [])
  | .jsonBody data =>
    match dictGetD data "response" (.obj []) with
    | .exn e => .exn e
    | .ok resp =>
      match dictGetD resp k (.arr []) with
      | .exn e => .exn e
      | .ok v => .ok v

/-- What one call to `get_cameras`/`get_photos` produced: the returned
value or raised exception, the headers sent, the query parameters, and
whether the HTTP request was issued at all. -/
structure FetchOutput where
  result : PyResult JVal
  headers : List (String × String)
  params : List (String × String)
  request_sent : Bool

/-- `RevealCellCamAPI.get_cameras` (api.py). `ensure_result` is the Bool
returned by the preceding `await self._ensure_authenticated()`; the
source discards it and issues the request unconditionally. -/
def get_cameras (ensure_result : Bool) (access_token : Option String)
    (outcome : HttpOutcome) : FetchOutput :=
  let _ignored := ensure_result
  let headers := get_headers access_token
  let result :=
    match outcome with
    | .netError => .ok (.arr [])
    | .reply status body =>
      if status = 200 then extract_list_field body "cameras" else .ok (.arr [])
  { result := result, headers := headers, params := [], request_sent := true }

/-- `RevealCellCamAPI.get_photos` (api.py), same shape as `get_cameras`
with the `photos` key and the `size`/`page`/`includeWeatherData`
(and optional `cameraId`) query parameters. -/
def get_photos (ensure_result : Bool) (access_token : Option String)
    (size page : Nat) (camera_id : Option String) (outcome : HttpOutcome) : FetchOutput :=
  let _ignored := ensure_result
  let headers := get_headers access_token
  let params :=
    [("size", toString size), ("page", toString page), ("includeWeatherData", "true")]
    ++ (if strTruthy camera_id then [("cameraId", camera_id.getD "")] else [])
  let result :=
    match outcome with
    | .netError => .ok (.arr [])
    | .reply status body =>
      if status = 200 then extract_list_field body "photos" else .ok (.arr [])
  { result := result, headers := headers, params := params, request_sent := true }

/-- One entry of a camera's `settings` list: the option label, the vendor
command code, the human function label, and any other fields the vendor
returned (left untouched by every mutation). -/
structure CamSetting where
  option : String
  code : String
  function : String
  extra : List (String × String) := []
deriving DecidableEq, Repr

/-- The fixed night-mode mapping table of `set_night_mode` (api.py). -/
def night_mode_map (mode : String) : Option (String × String) :=
  if mode = "max_range" then some ("$NM00*1#", "Max Range")
  else if mode = "balance" then some ("$NM00*2#", "Balance")
  else if mode = "min_blur" then some ("$NM00*3#", "Min Blur")
  else none

/-- The settings-list mutation loop shared by all `set_*` commands
(api.py): walk the list, overwrite `code` and `function` of the first
entry whose `option` equals the target, `break`, leave everything else
unchanged. -/
def apply_setting_code (target c f : String) : List CamSetting → List CamSetting
  | [] => []
  | s :: rest =>
    if s.option = target then { s with code := c, function := f } :: rest
    else s :: apply_setting_code target c f rest

/-- `RevealCellCamAPI.set_night_mode` (api.py) from the point where the
camera's settings list is in hand: invalid modes fail before submitting;
otherwise the mutated list is submitted whole (`submit` stands for
`update_camera_settings`) and its boolean is returned. The second
component records what was submitted. -/
def set_night_mode (settings : List CamSetting) (mode : String)
    (submit : List CamSetting → Bool) : Bool × Option (List CamSetting) :=
  match night_mode_map mode with
  | none => (false, none)
  | some (c, f) =>
    let ns := apply_setting_code "Night Mode" c f settings
    (submit ns, some ns)

/-- Concrete settings list for the C3 witness. -/
def c3_settings : List CamSetting :=
  [⟨"Motion Sensitivity", "5#", "Level 5", []⟩,
   ⟨"Night Mode", "$NM00*1#", "Max Range", [("k", "v")]⟩]

/-- Per-photo metadata block; battery and signal values modelled as
integers (so the `int(...)` conversion applied by the source is the
identity). -/
structure PhotoMeta where
  batteryLevel : Option Int := none
  signal : Option Int := none
deriving DecidableEq, Repr

/-- A photo record as used by `_calculate_camera_stats`. -/
structure Photo where
  photoDateUtc : Option String := none
  metadata : Option PhotoMeta := none
deriving DecidableEq, Repr

/-- The comprehension
`[int(p.get("metadata", {}).get(key, 0)) for p in photos[:10] if p.get("metadata", {}).get(key)]`
(api.py): over the first 10 photos, keep the truthy (present, non-zero)
values of the selected metadata field. -/
def metadata_levels (photos : List Photo) (field : PhotoMeta → Option Int) : List Int :=
  (photos.take 10).filterMap fun p =>
    match p.metadata.bind field with
    | none => none
    | some v => if v != 0 then some v else none

/-- The locally computed statistics block (api.py
`_calculate_camera_stats`): battery/signal keys are present only when at
least one truthy value was found. -/
structure CameraStats where
  total_photos : Nat
  last_photo_date : Option String
  first_photo_date : Option String
  average_battery : Option Rat := none
  current_battery : Option Int := none
  average_signal : Option Rat := none
  current_signal : Option Int := none
deriving DecidableEq, Repr

/-- `RevealCellCamAPI._calculate_camera_stats` (api.py) applied to the
photo list it fetched (newest-first): `{}` (here `none`) when the list is
empty, else total count, newest/oldest capture dates, and rolling
average (float division, here `Rat`) plus current battery and signal over
the first 10 photos. -/
def calculate_camera_stats (photos : List Photo) : Option CameraStats :=
  if photos.isEmpty then none
  else
    let bl := metadata_levels photos (fun m => m.batteryLevel)
    let sl := metadata_levels photos (fun m => m.signal)
    some {
      total_photos := photos.length
      last_photo_date := (photos.head?.getD {}).photoDateUtc
      first_photo_date := (photos.getLast?.getD {}).photoDateUtc
      average_battery :=
        if bl.isEmpty then none else some ((bl.sum : Rat) / (bl.length : Rat))
      current_battery := bl.head?
      average_signal :=
        if sl.isEmpty then none else some ((sl.sum : Rat) / (sl.length : Rat))
      current_signal := sl.head? }

/-- The `size=1000` bound `_calculate_camera_stats` passes to
`get_photos`. -/
def camera_stats_fetch_size : Nat := 1000

/-- The stats fallback over a camera's full newest-first photo stream:
the vendor returns at most `size` photos, so the local computation draws
from the 1000 most recent. -/
def camera_stats_from_stream (stream : List Photo) : Option CameraStats :=
  calculate_camera_stats (stream.take camera_stats_fetch_size)

/-- RSSI bucketing of `RevealServingCellSensor.extra_state_attributes`
(sensor.py). -/
def signal_quality (rssi : Int) : String :=
  if rssi ≥ -70 then "Excellent"
  else if rssi ≥ -85 then "Good"
  else if rssi ≥ -100 then "Fair"
  else "Poor"

/-- The built-in operator-code → carrier-name table (sensor.py). -/
def operator_names : List (String × String) :=
  [("310260", "T-Mobile"),
   ("310120", "Sprint"),
   ("311480", "Verizon"),
   ("310410", "AT&T"),
   ("310150", "AT&T"),
   ("310170", "AT&T"),
   ("310030", "AT&T"),
   ("311580", "US Cellular")]

/-- `operator_names.get(operator_code, f"Unknown ({operator_code})")`. -/
def carrier_name (code : String) : String :=
  (operator_names.lookup code).getD ("Unknown (" ++ code ++ ")")

/-- `s.split(",")` on the character list: split at every comma, keeping
empty segments. -/
def splitCharsOnComma : List Char → List (List Char)
  | [] => [[]]
  | c :: rest =>
    let r := splitCharsOnComma rest
    if c = ',' then [] :: r
    else
      match r with
      | [] => [[c]]
      | g :: gs => (c :: g) :: gs

/-- Python `serving_cell.split(",")`. -/
def splitOnComma (s : String) : List String :=
  (splitCharsOnComma s.data).map (fun cs => String.mk cs)

/-- `RevealServingCellSensor.extra_state_attributes` (sensor.py): when the
`servingCell` string is truthy, split it on commas; with at least 7 parts
emit the named fields, the RSSI quality bucket (skipped when `int(...)`
raises `ValueError`), and the carrier name; the raw string is always
kept. -/
def serving_cell_attributes (serving_cell : String) : List (String × String) :=
  if serving_cell ≠ "" then
    let parts := splitOnComma serving_cell
    let attrs :=
      if parts.length ≥ 7 then
        [("network_type", parts.getD 0 ""),
         ("network_operator", parts.getD 1 ""),
         ("band", parts.getD 2 ""),
         ("frequency", parts.getD 3 "" ++ " MHz"),
         ("rssi", parts.getD 4 "" ++ " dBm"),
         ("rsrp", parts.getD 5 "" ++ " dBm"),
         ("rsrq", parts.getD 6 "" ++ " dB")]
        ++ (match parseIntStr (parts.getD 4 "") with
            | some r => [("signal_quality", signal_quality r)]
            | none => [])
        ++ [("carrier_name", carrier_name (parts.getD 1 ""))]
      else []
    attrs ++ [("raw_serving_cell", serving_cell)]
  else []

/-- A camera record as `async_get_data` mutates it: the vendor id plus
the attached latest photo and stats (`none` models both an absent key and
the empty stats dict). -/
structure CameraRec where
  cameraId : Option String := none
  latest_photo : Option Photo := none
  stats : Option CameraStats := none
deriving DecidableEq, Repr

/-- One vendor request issued during a poll cycle. -/
inductive Request where
  | getCameras
  | getPhotos (size : Nat) (camera_id : Option String)
deriving DecidableEq, Repr

/-- Environment of one poll cycle: the camera list `get_cameras` returned
and, for each (camera, size) photo query, the list the vendor returns. -/
structure PollEnv where
  cameras : List CameraRec
  photosFor : Option String → Nat → List Photo

/-- The unified result of one poll cycle. -/
structure Snapshot where
  cameras : List CameraRec
  photos : List Photo
deriving DecidableEq, Repr

/-- Per-camera body of the `async_get_data` loop (api.py): when the
camera id is truthy, fetch its latest photo (`size=1`), attach it when one
exists, and attach the locally computed stats (`size=1000` fetch);
returns the updated record and the requests issued. -/
def process_camera (env : PollEnv) (cam : CameraRec) : CameraRec × List Request :=
  if strTruthy cam.cameraId then
    let cid := cam.cameraId
    let latest := (env.photosFor cid 1).head?
    let cam1 :=
      match latest with
      | some p => { cam with latest_photo := some p }
      | none => cam
    let cam2 := { cam1 with stats := calculate_camera_stats (env.photosFor cid camera_stats_fetch_size) }
    (cam2, [Request.getPhotos 1 cid, Request.getPhotos camera_stats_fetch_size cid])
  else (cam, [])

/-- `RevealCellCamAPI.async_get_data` (api.py) with its request trace:
fetch the camera list; when it is empty return the empty snapshot at
once (no photo fetch at all); otherwise process every camera in list
order and finish with the 20-photo history batch. -/
def async_get_data (env : PollEnv) : Snapshot × List Request :=
  if env.cameras.isEmpty then
    ({ cameras := [], photos := [] }, [Request.getCameras])
  else
    let processed := env.cameras.map (process_camera env)
    let reqs := processed.foldr (fun pr acc => pr.2 ++ acc) []
    ({ cameras := processed.map Prod.fst, photos := env.photosFor none 20 },
     Request.getCameras :: reqs ++ [Request.getPhotos 20 none])

theorem jval_truthy_not_null {v : JVal} (h : truthy v = true) :
    v.beqv JVal.null = false := by
  cases v
  · simp [truthy] at h
  all_goals rfl

theorem temp_alias_chain (fs : List (String × JVal)) :
    (if (pyOr (jget fs "currentTemp") (pyOr (jget fs "temperature") (jget fs "temp"))).beqv JVal.null
      then PyResult.ok (α := Option Int) none
      else PyResult.ok (pyFloat (pyOr (jget fs "currentTemp") (pyOr (jget fs "temperature") (jget fs "temp")))))
    = PyResult.ok (if truthy (jget fs "currentTemp") then pyFloat (jget fs "currentTemp")
       else if truthy (jget fs "temperature") then pyFloat (jget fs "temperature")
       else if (jget fs "temp").beqv JVal.null then none else pyFloat (jget fs "temp")) := by
  by_cases hc : truthy (jget fs "currentTemp") = true
  · simp [pyOr, hc, jval_truthy_not_null hc]
  · simp only [Bool.not_eq_true] at hc
    by_cases ht : truthy (jget fs "temperature") = true
    · simp [pyOr, hc, ht, jval_truthy_not_null ht]
    · simp only [Bool.not_eq_true] at ht
      cases hnull : (jget fs "temp").beqv JVal.null <;> simp [pyOr, hc, ht, hnull]

/-- C1 (amended): weather resolution probes `weatherData`, `weatherRecord`,
`weather` in order and keeps the first truthy value (a falsy value such as
an empty object is skipped); within the found object it probes
`currentTemp` then `temperature` for a truthy value, and failing both uses
the `temp` field whenever it is not null; if every probe fails the result
is unknown (`none`), never a default numeric value. -/
theorem temperature_probe_matches_spec (photo : List (String × JVal))
    (h1 : wellShaped (jget photo "weatherData"))
    (h2 : wellShaped (jget photo "weatherRecord"))
    (h3 : wellShaped (jget photo "weather")) :
    temperature_native_value photo = PyResult.ok (spec_resolve_temperature photo) := by
  unfold temperature_native_value spec_resolve_temperature
  by_cases ta : truthy (jget photo "weatherData") = true
  · obtain ⟨fs, hfs⟩ := h1 ta
    rw [hfs] at ta ⊢
    simp only [pyOr, ta, if_true]
    exact temp_alias_chain fs
  · simp only [Bool.not_eq_true] at ta
    by_cases tb : truthy (jget photo "weatherRecord") = true
    · obtain ⟨fs, hfs⟩ := h2 tb
      rw [hfs] at tb ⊢
      simp only [pyOr, ta, tb, if_true, if_false, Bool.false_eq_true]
      exact temp_alias_chain fs
    · simp only [Bool.not_eq_true] at tb
      by_cases tc : truthy (jget photo "weather") = true
      · obtain ⟨fs, hfs⟩ := h3 tc
        rw [hfs] at tc ⊢
        simp only [pyOr, ta, tb, tc, if_true, if_false, Bool.false_eq_true]
        exact temp_alias_chain fs
      · simp only [Bool.not_eq_true] at tc
        simp [pyOr, ta, tb, tc]

/-- C1 witness: a photo holding only a `weather` object with a `temp`
field resolves the same way under code and spec. -/
theorem temperature_probe_matches_spec_witness :
    temperature_native_value [("weather", JVal.obj [("temp", JVal.num 7)])]
      = PyResult.ok (spec_resolve_temperature [("weather", JVal.obj [("temp", JVal.num 7)])]) :=
  temperature_probe_matches_spec _
    (fun h => nomatch h) (fun h => nomatch h) (fun _ => ⟨_, rfl⟩)

/-- C1 counterexample: with `currentTemp` present and equal to 0 (non-null)
and `temperature` equal to 25, the code returns 25, not the first present
non-null value 0 that the claim requires. -/
theorem temperature_zero_not_first_winner :
    temperature_native_value c1_photo = PyResult.ok (some 25) ∧
    PyResult.ok (α := Option Int) (some 25) ≠ PyResult.ok (α := Option Int) (some 0) := by
  constructor
  · rfl
  · simp

/-- C2: with an access token and expiry stored, `_ensure_authenticated`
returns `True` without any network call when the expiry is more than
5 minutes away, and triggers a token refresh (not a full
re-authentication) when the expiry is strictly less than 5 minutes away
and a refresh token is held. -/
theorem ensure_valid_five_minute_buffer (st : TokenState) (now e : Int)
    (hacc : strTruthy st.access_token = true)
    (hexp : st.token_expiry = some e) :
    (e - now > token_buffer_seconds →
      ensure_authenticated_action st now = AuthAction.returnTrue ∧
      ∀ r, ensure_authenticated st now r = (st, true)) ∧
    (e - now < token_buffer_seconds → strTruthy st.refresh_token = true →
      ensure_authenticated_action st now = AuthAction.callRefresh ∧
      ∀ r, ensure_authenticated st now r = refresh_tokens st now r) := by
  constructor
  · intro hfar
    have hlt : ¬ now ≥ e - token_buffer_seconds := by omega
    have hact : ensure_authenticated_action st now = AuthAction.returnTrue := by
      unfold ensure_authenticated_action
      rw [hexp]
      simp [hacc, hlt]
    exact ⟨hact, fun r => by unfold ensure_authenticated; rw [hact]⟩
  · intro hnear hrefresh
    have hge : now ≥ e - token_buffer_seconds := by omega
    have hact : ensure_authenticated_action st now = AuthAction.callRefresh := by
      unfold ensure_authenticated_action
      rw [hexp]
      simp [hacc, hge, hrefresh]
    exact ⟨hact, fun r => by unfold ensure_authenticated; rw [hact]⟩

/-- C2 witness: with expiry at 1000s, at `now = 0` (more than 300s away)
the check returns `True`; at `now = 800` (less than 300s away) it
refreshes. -/
theorem ensure_valid_five_minute_buffer_witness :
    ensure_authenticated_action ⟨some "A", none, some "R", some 1000⟩ 0 = AuthAction.returnTrue ∧
    ensure_authenticated_action ⟨some "A", none, some "R", some 1000⟩ 800 = AuthAction.callRefresh :=
  ⟨((ensure_valid_five_minute_buffer ⟨some "A", none, some "R", some 1000⟩ 0 1000
      (by decide) rfl).1 (by decide)).1,
   ((ensure_valid_five_minute_buffer ⟨some "A", none, some "R", some 1000⟩ 800 1000
      (by decide) rfl).2 (by decide) (by decide)).1⟩

theorem authenticate_establishes (st : TokenState) (now : Int) (r : CognitoReply)
    (h : (authenticate st now r).2 = true) :
    token_invariant (authenticate st now r).1 := by
  cases r with
  | netError => simp [authenticate] at h
  | http status ar =>
    by_cases hs : status = 200
    · cases ar with
      | none => simp [authenticate, hs] at h
      | some a => intro _; simp [authenticate, hs]
    · simp [authenticate, hs] at h

theorem authenticate_preserves (st : TokenState) (now : Int) (r : CognitoReply)
    (h : token_invariant st) :
    token_invariant (authenticate st now r).1 := by
  cases r with
  | netError => exact h
  | http status ar =>
    by_cases hs : status = 200
    · cases ar with
      | none => simpa [authenticate, hs] using h
      | some a => intro _; simp [authenticate, hs]
    · simpa [authenticate, hs] using h

theorem refresh_preserves (st : TokenState) (now : Int) (r : CognitoReply)
    (h : token_invariant st) :
    token_invariant (refresh_tokens st now r).1 := by
  unfold refresh_tokens
  by_cases hrt : strTruthy st.refresh_token = false
  · simpa [hrt] using authenticate_preserves st now r h
  · simp only [hrt, if_false]
    cases r with
    | netError => exact h
    | http status ar =>
      by_cases hs : status = 200
      · cases ar with
        | none => simpa [hs] using h
        | some a => intro _; simp [hs]
      · simpa [hs] using h

/-- C7: in every reachable token-manager state a stored access token comes
with a set expiry: the invariant holds in the initial state, is
established by any successful `authenticate`, and is preserved by
`authenticate`, `_refresh_tokens` and `_ensure_authenticated`. -/
theorem token_expiry_invariant :
    token_invariant initialTokenState ∧
    (∀ st now r, (authenticate st now r).2 = true → token_invariant (authenticate st now r).1) ∧
    (∀ st now r, token_invariant st → token_invariant (authenticate st now r).1) ∧
    (∀ st now r, token_invariant st → token_invariant (refresh_tokens st now r).1) ∧
    (∀ st now r, token_invariant st → token_invariant (ensure_authenticated st now r).1) := by
  refine ⟨fun h => absurd rfl h, authenticate_establishes, authenticate_preserves,
    refresh_preserves, ?_⟩
  intro st now r h
  unfold ensure_authenticated
  cases hact : ensure_authenticated_action st now with
  | returnTrue => exact h
  | callAuthenticate => exact authenticate_preserves st now r h
  | callRefresh => exact refresh_preserves st now r h

/-- C7 witness: the invariant survives a concrete refresh attempt from the
initial state. -/
theorem token_expiry_invariant_witness :
    token_invariant (refresh_tokens initialTokenState 0 CognitoReply.netError).1 :=
  token_expiry_invariant.2.2.2.1 initialTokenState 0 CognitoReply.netError
    (fun h => absurd rfl h)

/-- C6 (amended): every call built on `_get_headers` — list cameras, list
photos, settings update, photo request, video request — sends
`Authorization: Bearer <access token>` (when an access token is held)
together with the fixed vendor client-identity header
`reveal-user-agent`; the camera-stats call also sends the client-identity
header but interpolates the id token, not the access token, into its
`Authorization` header. -/
theorem bearer_and_client_identity_headers (s : String) (hs : s ≠ "") (idt : Option String) :
    (get_headers (some s)).lookup "Authorization" = some ("Bearer " ++ s) ∧
    (get_headers (some s)).lookup "reveal-user-agent" = some USER_AGENT ∧
    (camera_stats_headers idt).lookup "Authorization" = some ("Bearer " ++ pyStrOpt idt) ∧
    (camera_stats_headers idt).lookup "reveal-user-agent" = some USER_AGENT := by
  have hts : strTruthy (some s) = true := by simp [strTruthy, hs]
  refine ⟨?_, ?_, rfl, rfl⟩ <;> simp [get_headers, hts, List.lookup]

/-- C6 witness: concrete tokens. -/
theorem bearer_and_client_identity_headers_witness :
    (get_headers (some "ACC")).lookup "Authorization" = some ("Bearer " ++ "ACC") ∧
    (get_headers (some "ACC")).lookup "reveal-user-agent" = some USER_AGENT ∧
    (camera_stats_headers (some "ID")).lookup "Authorization" = some ("Bearer " ++ pyStrOpt (some "ID")) ∧
    (camera_stats_headers (some "ID")).lookup "reveal-user-agent" = some USER_AGENT :=
  bearer_and_client_identity_headers "ACC" (by decide) (some "ID")

/-- C6 counterexample: with access token `ACCESSTOKEN` and id token
`IDTOKEN` both held, the camera-stats call sends `Bearer IDTOKEN` — not
the access token the claim requires. -/
theorem stats_call_sends_id_token :
    (camera_stats_headers (some "IDTOKEN")).lookup "Authorization" = some "Bearer IDTOKEN" ∧
    (get_headers (some "ACCESSTOKEN")).lookup "Authorization" = some "Bearer ACCESSTOKEN" ∧
    ("Bearer IDTOKEN" : String) ≠ "Bearer ACCESSTOKEN" := by
  refine ⟨rfl, ?_, by decide⟩
  simp [get_headers, strTruthy, List.lookup]

/-- C5 (amended): `get_cameras` and `get_photos` return an empty list
without raising on a non-200 HTTP status, a network error, or a body
served with a non-JSON content type; a malformed JSON body served as JSON,
however, raises a `json.JSONDecodeError` to the caller (it is not an
`aiohttp.ClientError`, the only class the except clause catches). -/
theorem fetch_absorbs_http_and_network_errors (ensure_result : Bool) (tok : Option String)
    (status : Nat) (body : BodyContent) (size page : Nat) (cid : Option String)
    (h : status ≠ 200) :
    (get_cameras ensure_result tok HttpOutcome.netError).result = .ok (.arr []) ∧
    (get_cameras ensure_result tok (.reply status body)).result = .ok (.arr []) ∧
    (get_photos ensure_result tok size page cid HttpOutcome.netError).result = .ok (.arr []) ∧
    (get_photos ensure_result tok size page cid (.reply status body)).result = .ok (.arr []) ∧
    (∀ s2 : Nat,
      (get_cameras ensure_result tok (.reply s2 .wrongContentType)).result = .ok (.arr []) ∧
      (get_photos ensure_result tok size page cid (.reply s2 .wrongContentType)).result
        = .ok (.arr [])) := by
  refine ⟨rfl, ?_, rfl, ?_, ?_⟩
  · simp [get_cameras, h]
  · simp [get_photos, h]
  · intro s2
    by_cases h2 : s2 = 200 <;>
      simp [get_cameras, get_photos, h2, extract_list_field]

/-- C5 witness: a 500 reply degrades to an empty list on both calls. -/
theorem fetch_absorbs_errors_witness :
    (get_cameras true (some "TOK") (.reply 500 .malformed)).result = .ok (.arr []) ∧
    (get_photos true (some "TOK") 100 0 none HttpOutcome.netError).result = .ok (.arr []) :=
  ⟨(fetch_absorbs_http_and_network_errors true (some "TOK") 500 .malformed 100 0 none
      (by decide)).2.1,
   (fetch_absorbs_http_and_network_errors true (some "TOK") 500 .malformed 100 0 none
      (by decide)).2.2.1⟩

/-- C5 counterexample: a 200 reply whose body is malformed JSON makes both
calls raise `json.JSONDecodeError` instead of returning an empty list. -/
theorem malformed_json_raises :
    (get_cameras true (some "TOK") (.reply 200 .malformed)).result = .exn "JSONDecodeError" ∧
    (get_photos true (some "TOK") 100 0 none (.reply 200 .malformed)).result = .exn "JSONDecodeError" ∧
    PyResult.exn (α := JVal) "JSONDecodeError" ≠ .ok (.arr []) := by
  refine ⟨rfl, rfl, ?_⟩
  simp

/-- C10: the HTTP request of `get_cameras`/`get_photos` is issued whatever
the discarded result of `_ensure_authenticated` was (the whole call
outcome is independent of it), and with no access token held the request
goes out with the `Authorization` header omitted instead of being
aborted. -/
theorem fetch_ignores_ensure_result (a b : Bool) (tok : Option String)
    (outcome : HttpOutcome) (size page : Nat) (cid : Option String) :
    get_cameras a tok outcome = get_cameras b tok outcome ∧
    get_photos a tok size page cid outcome = get_photos b tok size page cid outcome ∧
    (get_cameras a none outcome).request_sent = true ∧
    (get_photos a none size page cid outcome).request_sent = true ∧
    (get_cameras a none outcome).headers.lookup "Authorization" = none ∧
    (get_photos a none size page cid outcome).headers.lookup "Authorization" = none := by
  refine ⟨rfl, rfl, rfl, rfl, ?_, ?_⟩ <;>
    simp [get_cameras, get_photos, get_headers, strTruthy, List.lookup]

theorem apply_setting_code_no_match (target c f : String) (settings : List CamSetting)
    (h : ∀ s ∈ settings, s.option ≠ target) :
    apply_setting_code target c f settings = settings := by
  induction settings with
  | nil => rfl
  | cons s rest ih =>
    have hs := h s (by simp)
    simp [apply_setting_code, hs, ih (fun t ht => h t (by simp [ht]))]

theorem apply_setting_code_first_match (target c f : String) (pre : List CamSetting)
    (s : CamSetting) (post : List CamSetting)
    (hs : s.option = target) (hpre : ∀ t ∈ pre, t.option ≠ target) :
    apply_setting_code target c f (pre ++ s :: post)
      = pre ++ { s with code := c, function := f } :: post := by
  induction pre with
  | nil => simp [apply_setting_code, hs]
  | cons t rest ih =>
    have ht := hpre t (by simp)
    simp [apply_setting_code, ht, ih (fun u hu => hpre u (by simp [hu]))]

/-- C3: for a valid night mode, when the fetched settings list contains a
`Night Mode` entry, the submitted list equals the fetched list except that
the first such entry's `code` and `function` are replaced by the fixed
mapping, every other entry and field unchanged; when no entry matches,
the list is submitted unchanged and the submit result is still returned
as the success report. -/
theorem set_night_mode_frame (settings : List CamSetting) (mode c f : String)
    (submit : List CamSetting → Bool)
    (hmap : night_mode_map mode = some (c, f)) :
    ((∀ s ∈ settings, s.option ≠ "Night Mode") →
      set_night_mode settings mode submit = (submit settings, some settings)) ∧
    (∀ pre s post, settings = pre ++ s :: post → s.option = "Night Mode" →
      (∀ t ∈ pre, t.option ≠ "Night Mode") →
      set_night_mode settings mode submit =
        (submit (pre ++ { s with code := c, function := f } :: post),
         some (pre ++ { s with code := c, function := f } :: post))) := by
  constructor
  · intro h
    unfold set_night_mode
    rw [hmap]
    show (submit (apply_setting_code "Night Mode" c f settings),
          some (apply_setting_code "Night Mode" c f settings)) = (submit settings, some settings)
    rw [apply_setting_code_no_match "Night Mode" c f settings h]
  · intro pre s post hdec hs hpre
    unfold set_night_mode
    rw [hmap, hdec]
    show (submit (apply_setting_code "Night Mode" c f (pre ++ s :: post)),
          some (apply_setting_code "Night Mode" c f (pre ++ s :: post))) = _
    rw [apply_setting_code_first_match "Night Mode" c f pre s post hs hpre]

/-- C3 witness: `min_blur` on a two-entry list rewrites only the
`Night Mode` entry's `code` and `function`, keeping its extra field and
the other entry. -/
theorem set_night_mode_frame_witness :
    set_night_mode c3_settings "min_blur" (fun _ => true)
      = (true, some [⟨"Motion Sensitivity", "5#", "Level 5", []⟩,
                     ⟨"Night Mode", "$NM00*3#", "Min Blur", [("k", "v")]⟩]) :=
  (set_night_mode_frame c3_settings "min_blur" "$NM00*3#" "Min Blur" (fun _ => true) rfl).2
    [⟨"Motion Sensitivity", "5#", "Level 5", []⟩]
    ⟨"Night Mode", "$NM00*1#", "Max Range", [("k", "v")]⟩
    [] rfl rfl (by decide)

/-- C4: on a non-empty newest-first photo list the locally computed stats
block holds the list's length as total count, the newest photo's date as
last capture, the oldest photo's date as first capture, and rolling
average plus current battery and signal over the first 10 photos; the
fallback draws from at most 1000 recent photos of the camera. -/
theorem camera_stats_locally_computed (p : Photo) (ps stream : List Photo) :
    (∃ s, calculate_camera_stats (p :: ps) = some s ∧
      s.total_photos = (p :: ps).length ∧
      s.last_photo_date = p.photoDateUtc ∧
      s.first_photo_date = ((p :: ps).getLast (List.cons_ne_nil p ps)).photoDateUtc ∧
      s.current_battery = (metadata_levels (p :: ps) (fun m => m.batteryLevel)).head? ∧
      s.average_battery =
        (if (metadata_levels (p :: ps) (fun m => m.batteryLevel)).isEmpty then none
         else some (((metadata_levels (p :: ps) (fun m => m.batteryLevel)).sum : Rat) /
                    ((metadata_levels (p :: ps) (fun m => m.batteryLevel)).length : Rat))) ∧
      s.current_signal = (metadata_levels (p :: ps) (fun m => m.signal)).head? ∧
      s.average_signal =
        (if (metadata_levels (p :: ps) (fun m => m.signal)).isEmpty then none
         else some (((metadata_levels (p :: ps) (fun m => m.signal)).sum : Rat) /
                    ((metadata_levels (p :: ps) (fun m => m.signal)).length : Rat)))) ∧
    camera_stats_from_stream stream = calculate_camera_stats (stream.take 1000) := by
  refine ⟨⟨_, rfl, rfl, rfl, ?_, rfl, rfl, rfl, rfl⟩, rfl⟩
  show ((p :: ps).getLast?.getD {}).photoDateUtc
      = ((p :: ps).getLast (List.cons_ne_nil p ps)).photoDateUtc
  rw [List.getLast?_eq_getLast (p :: ps) (List.cons_ne_nil p ps)]
  rfl

/-- C8: the concrete serving-cell string decomposes into named fields with
network type `FDD LTE`, operator `311480` mapped to `Verizon`, and RSSI
`-79` bucketed as `Good`; in general the bucket is Excellent at `≥ -70`,
Good at `≥ -85`, Fair at `≥ -100`, else Poor. -/
theorem serving_cell_decomposition :
    ((serving_cell_attributes "FDD LTE,311480,LTE BAND 4,2350,-79,221,-15").lookup "network_type"
        = some "FDD LTE" ∧
     (serving_cell_attributes "FDD LTE,311480,LTE BAND 4,2350,-79,221,-15").lookup "network_operator"
        = some "311480" ∧
     (serving_cell_attributes "FDD LTE,311480,LTE BAND 4,2350,-79,221,-15").lookup "band"
        = some "LTE BAND 4" ∧
     (serving_cell_attributes "FDD LTE,311480,LTE BAND 4,2350,-79,221,-15").lookup "rssi"
        = some "-79 dBm" ∧
     (serving_cell_attributes "FDD LTE,311480,LTE BAND 4,2350,-79,221,-15").lookup "carrier_name"
        = some "Verizon" ∧
     (serving_cell_attributes "FDD LTE,311480,LTE BAND 4,2350,-79,221,-15").lookup "signal_quality"
        = some "Good") ∧
    ∀ r : Int,
      (r ≥ -70 → signal_quality r = "Excellent") ∧
      (r ≥ -85 → r < -70 → signal_quality r = "Good") ∧
      (r ≥ -100 → r < -85 → signal_quality r = "Fair") ∧
      (r < -100 → signal_quality r = "Poor") := by
  refine ⟨⟨rfl, rfl, rfl, rfl, rfl, rfl⟩, ?_⟩
  intro r
  refine ⟨?_, ?_, ?_, ?_⟩
  · intro h1
    unfold signal_quality
    rw [if_pos h1]
  · intro h1 h2
    unfold signal_quality
    rw [if_neg (by omega), if_pos h1]
  · intro h1 h2
    unfold signal_quality
    rw [if_neg (by omega), if_neg (by omega), if_pos h1]
  · intro h1
    unfold signal_quality
    rw [if_neg (by omega), if_neg (by omega), if_neg (by omega)]

/-- C8 witness: the bucket thresholds at concrete RSSI values. -/
theorem serving_cell_decomposition_witness :
    signal_quality (-60) = "Excellent" ∧ signal_quality (-79) = "Good" ∧
    signal_quality (-90) = "Fair" ∧ signal_quality (-120) = "Poor" :=
  ⟨(serving_cell_decomposition.2 (-60)).1 (by decide),
   (serving_cell_decomposition.2 (-79)).2.1 (by decide) (by decide),
   (serving_cell_decomposition.2 (-90)).2.2.1 (by decide) (by decide),
   (serving_cell_decomposition.2 (-120)).2.2.2 (by decide)⟩

/-- C9: when the fetched camera list is empty, the poll cycle produces the
snapshot with zero cameras and zero photos, raises nothing (it is a total
function), and its request trace holds only the camera-list fetch — no
per-camera and no batch photo request. -/
theorem empty_camera_list_snapshot (env : PollEnv) (h : env.cameras = []) :
    async_get_data env = ({ cameras := [], photos := [] }, [Request.getCameras]) := by
  unfold async_get_data
  rw [h]
  rfl

/-- C9 witness: a concrete environment with no cameras. -/
theorem empty_camera_list_snapshot_witness :
    async_get_data ⟨[], fun _ _ => []⟩
      = ({ cameras := [], photos := [] }, [Request.getCameras]) :=
  empty_camera_list_snapshot ⟨[], fun _ _ => []⟩ rfl
